import Mathlib

/-
Formal model of the MobileClaw task-orchestration engine
(`src/mobileclaw/agent.py`, class `AutoAgent`).

The shallow embedding below mirrors the Python source line by line:

* `AgentState` holds the orchestrator-owned mutable fields of `AutoAgent`
  (`_idle_task_count`, `_current_task_stack`, `_message_pause_event`,
  `_handling_message`), plus two modelling devices: the contents of the
  shared mutable default list of `execute_task`'s `actions_and_results=[]`
  parameter (Python creates that list once at function definition time and
  reuses the same object on every call that omits the argument), and the
  stream of answers the external StepPlanner (`self.fm.call_func`) will
  give - the planner is an external collaborator, so it is modelled as a
  list of `(thought, code)` pairs consumed one per call, with `("", none)`
  once the stream is empty (the source's planner-failure behaviour).
* A planner-produced script (the text Python `exec`s) is modelled as a
  `Script`: a list of capability-surface calls (`Action`) plus the value
  the `task_status` global has when the script ends, `"ongoing"` if the
  script never sets it.  An arbitrary script fault is `Action.raiseFault`.
* Device, model, chat and file gateways are opaque synchronous externals
  (per the spec they are out of scope); their calls succeed and have no
  effect on the tracked state.
* Exceptions are modelled with `ExecResult.fault`; both constructors carry
  the state so that `finally:` blocks can run on every exit path.
* The interpreter `run` is structurally recursive on a `fuel` parameter;
  each nested `execute_task` / `handle_message` entry costs one unit.
  Fuel exhaustion is a model artifact (`fuelMsg`) that never occurs in
  adequately fuelled runs; the recursion-depth guard of the source
  (`_recursion_depth >= 3`) is checked before fuel, exactly as it is the
  first statement of `execute_task`.
-/

namespace MobileClaw

/-- One history entry. The source stores strings (and occasionally images);
text entries suffice for every property considered here. -/
abbrev Entry := String

/-- A call through the `AgentAPI` capability surface
(`_create_agent_api_for_execution`, agent.py:754-898). -/
inductive Action where
  | doWithDevice (task knowledge device : String)
  | executeTaskSub (task knowledge : String) (maxSteps : Nat)
  | queryModel (q : String)
  | takeNote (text : String)
  | recordResult (content : String)
  | sendMessage (message receiver channel : String)
  | handleMessageSub (message history sender channel : String)
  | fileOp (op : String)
  | raiseFault (msg : String)
deriving DecidableEq

/-- A planner-produced step script: its source text (shown in the
`Step i Action:` record), the capability calls it performs, and the value
of the `task_status` global when it finishes (`"ongoing"` if unset). -/
structure Script where
  src : String
  actions : List Action
  taskStatus : String
deriving DecidableEq

/-- The orchestrator-owned mutable state of one `AutoAgent` instance. -/
structure AgentState where
  /-- `self._idle_task_count`. -/
  idleTaskCount : Nat
  /-- `self._current_task_stack`: `(task, actions_and_results)` entries,
  top at the end.  The source stores a reference to the live list; the
  model stores its contents at push time (the difference is observable
  only through a concurrent reader, which the sequential model has not). -/
  taskStack : List (String × List Entry)
  /-- `self._message_pause_event`: `true` = set = normal tasks may run. -/
  gateOpen : Bool
  /-- `self._handling_message`. -/
  handlingMessage : Bool
  /-- Contents of the shared mutable default object of the
  `actions_and_results=[]` parameter of `execute_task`. -/
  defaultHist : List Entry
  /-- Everything `_log_and_report` forwarded to the log/self-report
  channel, in order. -/
  reportLog : List Entry
  /-- Remaining answers of the external StepPlanner. -/
  planner : List (String × Option Script)
deriving DecidableEq

/-- Accumulators of one `AgentAPI` object (`self._notes`, `self._results`). -/
structure ApiState where
  notes : List String
  results : List String
deriving DecidableEq

def initApi : ApiState := ⟨[], []⟩

/-- How the `actions_and_results` argument of `execute_task` is supplied:
omitted (Python then uses the shared default list object), a caller-made
copy, or - through the positional-argument slip in
`AgentAPI.execute_task` (agent.py:836) - an `int`. -/
inductive HistArg where
  | default
  | fresh (entries : List Entry)
  | intArg (n : Nat)
deriving DecidableEq

/-- An entry point of the orchestrator: `execute_task` or `handle_message`. -/
inductive Call where
  | exec (task knowledge : String) (histArg : HistArg) (maxSteps depth : Nat) (mode : String)
  | handle (message history sender channel : String)
deriving DecidableEq

/-- Outcome of an entry point: normal return of the results list, or a
propagating Python exception.  Both carry the post-state so `finally:`
blocks are accounted for on every path. -/
inductive ExecResult where
  | ok (results : List String) (st : AgentState)
  | fault (msg : String) (st : AgentState)
deriving DecidableEq

def ExecResult.stateOf : ExecResult → AgentState
  | .ok _ st => st
  | .fault _ st => st

def ExecResult.resultsOf : ExecResult → Option (List String)
  | .ok r _ => some r
  | .fault _ _ => none

def ExecResult.faultMsg : ExecResult → Option String
  | .ok _ _ => none
  | .fault e _ => some e

/-- `self.actions_and_results_max_len` (agent.py:36). -/
def actionsAndResultsMaxLen : Nat := 100

/-- The per-task visual tag.  The source draws a random emoji
(agent.py:233-236); the model fixes one - no verified property depends on
its value. -/
def taskTag : String := "*"

/-- `"  " * depth` (agent.py:250). -/
def indentOf (depth : Nat) : String := String.join (List.replicate depth ("  "))

/-- Message of the error list returned when `_recursion_depth >= 3`
(agent.py:230). -/
def recursionErrMsg (task : String) : String :=
  ("Error: Maximum recursion depth (3) reached. Cannot execute subtask: ") ++ task

/-- `actions_and_results` arrives as an `int` and `.append` is attempted on
it (`_log_and_report`, agent.py:87). -/
def attrIntMsg : String := ("AttributeError: int object has no attribute append")

/-- `self.agent._log_and_report(...)` (agent.py:334): `AutoAgent` has no
attribute `agent`. -/
def attrAgentMsg : String := ("AttributeError: AutoAgent object has no attribute agent")

/-- `step` is read after a zero-iteration loop (agent.py:333 with
`max_steps = 0`). -/
def nameErrMsg : String := ("NameError: name step is not defined")

/-- Model artifact: the structural-recursion fuel ran out. -/
def fuelMsg : String := ("model: fuel exhausted")

/-- The step-limit warning the source *intends* to record at agent.py:334
(the call is made through the nonexistent attribute `self.agent`). -/
def stepLimitMsg (maxSteps : Nat) : String :=
  ("Task stopped due to step limit: ") ++ toString maxSteps ++
    (". . You may need to start a new task to complete the remaining work.")

/-- `f'{indent}Step {step} Thought: {thought}'` (agent.py:293). -/
def thoughtMsg (depth stepIdx : Nat) (thought : String) : String :=
  indentOf depth ++ ("Step ") ++ toString stepIdx ++ (" Thought: ") ++ thought

/-- Warning for an empty script (agent.py:297). -/
def warnMsg (depth stepIdx : Nat) : String :=
  indentOf depth ++ ("Step ") ++ toString stepIdx ++
    (" Warning: No code parsed from the response. Perhaps forgot to wrap code in code block?")

/-- `f'{indent}Step {step} Action:...'` (agent.py:300). -/
def actionMsg (depth stepIdx : Nat) (src : String) : String :=
  indentOf depth ++ ("Step ") ++ toString stepIdx ++ (" Action:\n```\n") ++ src ++ ("\n```")

/-- `f"{indent}Error: step {step} was failed: {e}"` (agent.py:328). -/
def stepErrMsg (depth stepIdx : Nat) (e : String) : String :=
  indentOf depth ++ ("Error: step ") ++ toString stepIdx ++ (" was failed: ") ++ e

/-- `sleep_time = min(2 ** self._idle_task_count, 600)` (`_adaptive_sleep`,
agent.py:63). -/
def adaptiveSleepSeconds (idleCount : Nat) : Nat := min (2 ^ idleCount) 600

/-- `_log_and_report` (agent.py:74-116): append the tag-prefixed content to
the given buffer and forward it to the log/self-report channel (whose own
failures are caught there).  When the buffer is the shared default list
(`aliased = true`), the append is visible through `defaultHist` too. -/
def log_and_report (st : AgentState) (content : String) (buf : List Entry)
    (aliased : Bool) (tag : String) : AgentState × List Entry :=
  let prefixed := tag ++ (" ") ++ content
  ({st with
      reportLog := st.reportLog ++ [prefixed],
      defaultHist := if aliased then st.defaultHist ++ [prefixed] else st.defaultHist},
    buf ++ [prefixed])

/-- One call to the external StepPlanner (`self.fm.call_func('task_step', ...)`,
agent.py:289): consume the next scripted answer; an exhausted stream
models planner failure (`("", none)`). -/
def plannerCall (st : AgentState) : (String × Option Script) × AgentState :=
  match st.planner with
  | [] => (("", none), st)
  | p :: rest => (p, {st with planner := rest})

/-- The lazy truncation applied at the top of every loop iteration
(agent.py:272-273): rebind to the most recent `max_len` entries. -/
def trimHistory (xs : List Entry) : List Entry :=
  if actionsAndResultsMaxLen < xs.length then
    xs.drop (xs.length - actionsAndResultsMaxLen)
  else xs

/-- `idle_flag` (agent.py:340-342): set iff `finished_step == 0`. -/
def idleFlagOf (finishedStep : Option Nat) : Bool := finishedStep == some 0

/-- The depth-0 idle accounting (agent.py:344-348). -/
def updateIdleCount (depth : Nat) (idleFlag : Bool) (count : Nat) : Nat :=
  if depth = 0 then (if idleFlag then count + 1 else 0) else count

/-- `if self._current_task_stack and self._current_task_stack[-1][0] == task:
pop` - the `finally:` block of `execute_task` (agent.py:355-358). -/
def popIfTop (task : String) (st : AgentState) : AgentState :=
  match st.taskStack.getLast? with
  | some (t, _) => if t = task then {st with taskStack := st.taskStack.dropLast} else st
  | none => st

/-- `get_current_task_info` (agent.py:201-210). -/
def get_current_task_info (st : AgentState) : Option String × List Entry :=
  match st.taskStack.getLast? with
  | none => (none, [])
  | some (t, h) => (some t, h)

/-- `self._mode in ['handle_message', 'conclude_task']` (agent.py:810,833). -/
def restrictedMode (mode : String) : Bool :=
  mode == ("handle_message") || mode == ("conclude_task")

/-- Result of the `for step in range(max_steps)` loop of `execute_task`:
the state, the (possibly rebound) local `actions_and_results`, whether that
local still aliases the shared default object, the `AgentAPI` accumulators,
`finished_step` (`none` models Python's `-1`), and the value the loop
variable `step` has after the loop (`none` iff the loop ran zero times, in
which case reading `step` raises `NameError`). -/
structure LoopOut where
  st : AgentState
  buf : List Entry
  aliased : Bool
  api : ApiState
  finishedStep : Option Nat
  lastStep : Option Nat
deriving DecidableEq

/-- The loop-invariant arguments of the step loop. -/
structure StepCtx where
  task : String
  knowledge : String
  maxSteps : Nat
  depth : Nat
  mode : String
  tag : String
deriving DecidableEq

/-- One capability-surface call (`AgentAPI`, agent.py:798-898), dispatched
against the owning agent `sub` (the `self._agent` back reference).  Returns
the updated state and accumulators, plus `some e` when the call raises. -/
def runAction (sub : AgentState → Call → ExecResult) (st : AgentState) (api : ApiState)
    (depth : Nat) (mode : String) : Action → AgentState × ApiState × Option String
  | .doWithDevice _ _ _ =>
    if restrictedMode mode then
      (st, api, some (("do_with_device is not allowed in ") ++ mode ++ (" mode.")))
    else
      (st, api, none)
  | .executeTaskSub task knowledge maxSteps =>
    if restrictedMode mode then
      (st, api, some (("execute_task is not allowed in ") ++ mode ++ (" mode.")))
    else
      match sub st (.exec task knowledge (.intArg maxSteps) 30 (depth + 1) ("normal")) with
      | .ok _ st2 => (st2, api, none)
      | .fault e st2 => (st2, api, some e)
  | .queryModel _ => (st, api, none)
  | .takeNote text => (st, {api with notes := api.notes ++ [text]}, none)
  | .recordResult content => (st, {api with results := api.results ++ [content]}, none)
  | .sendMessage _ _ _ => (st, api, none)
  | .handleMessageSub m h s c =>
    match sub st (.handle m h s c) with
    | .ok _ st2 => (st2, api, none)
    | .fault _ st2 => (st2, api, none)
  | .fileOp _ => (st, api, none)
  | .raiseFault e => (st, api, some e)

/-- `exec(code, exec_globals)` (agent.py:314): run the script's capability
calls in order; the first fault aborts the rest of the script and is
reported to the caller (the sandbox itself contains nothing). -/
def runScript (sub : AgentState → Call → ExecResult) (depth : Nat) (mode : String)
    (st : AgentState) (api : ApiState) :
    List Action → AgentState × ApiState × Option String
  | [] => (st, api, none)
  | a :: rest =>
    match runAction sub st api depth mode a with
    | (st2, api2, some e) => (st2, api2, some e)
    | (st2, api2, none) => runScript sub depth mode st2 api2 rest

/-- The `for step in range(max_steps)` loop of `execute_task`
(agent.py:264-331), one iteration per recursion step.  In order: the
ConcurrencyGate wait for normal mode (a no-op for the sequential model),
the lazy history truncation, the planner call, the thought record, the
empty-script warning (`continue`), the action record, the guarded script
execution (a fault appends one error record and `continue`s), and the
`task_status` check (`break` on any non-`"ongoing"` value, remembering the
step index when it is `"finished"`). -/
def stepLoop (sub : AgentState → Call → ExecResult) (ctx : StepCtx) (st : AgentState)
    (stepIdx remaining : Nat) (buf : List Entry) (aliased : Bool)
    (api : ApiState) (finishedStep : Option Nat) : LoopOut :=
  match remaining with
  | 0 =>
    ⟨st, buf, aliased, api, finishedStep,
      if stepIdx = 0 then none else some (stepIdx - 1)⟩
  | remaining' + 1 =>
    let (buf, aliased) :=
      if actionsAndResultsMaxLen < buf.length then (trimHistory buf, false)
      else (buf, aliased)
    let ((thought, code), st) := plannerCall st
    let (st, buf) :=
      if thought = ("") then (st, buf)
      else log_and_report st (thoughtMsg ctx.depth stepIdx thought) buf aliased ctx.tag
    match code with
    | none =>
      let (st, buf) := log_and_report st (warnMsg ctx.depth stepIdx) buf aliased ctx.tag
      stepLoop sub ctx st (stepIdx + 1) remaining' buf aliased api finishedStep
    | some script =>
      let (st, buf) :=
        log_and_report st (actionMsg ctx.depth stepIdx script.src) buf aliased ctx.tag
      match runScript sub ctx.depth ctx.mode st api script.actions with
      | (st2, api2, some e) =>
        let (st3, buf2) :=
          log_and_report st2 (stepErrMsg ctx.depth stepIdx e) buf aliased ctx.tag
        stepLoop sub ctx st3 (stepIdx + 1) remaining' buf2 aliased api2 finishedStep
      | (st2, api2, none) =>
        if script.taskStatus = ("ongoing") then
          stepLoop sub ctx st2 (stepIdx + 1) remaining' buf aliased api2 finishedStep
        else
          ⟨st2, buf, aliased, api2,
            (if script.taskStatus = ("finished") then some stepIdx else finishedStep),
            some stepIdx⟩

/-- `f"Review and save useful information from the following completed
task:\n{task}"` (`_conclude_task`, agent.py:132). -/
def concludeSummary (task : String) : String :=
  ("Review and save useful information from the following completed task:\n") ++ task

/-- `_conclude_task` (agent.py:118-141): run a `conclude_task`-mode
sub-task over a copy of the history with `max_steps=10` at depth+1; its
`except Exception` swallows any failure (logged only), so a state always
comes back. -/
def conclude_task (sub : AgentState → Call → ExecResult) (st : AgentState) (task : String)
    (actionsAndResults : List Entry) (depth : Nat) : AgentState :=
  match sub st (.exec (concludeSummary task) ("") (.fresh actionsAndResults) 10
      (depth + 1) ("conclude_task")) with
  | .ok _ st2 => st2
  | .fault _ st2 => st2

/-- The body of `execute_task` after the recursion-depth guard
(agent.py:232-358).  `sub` runs a nested entry point one fuel level down. -/
def execute_task_body (sub : AgentState → Call → ExecResult) (st : AgentState)
    (task knowledge : String) (histArg : HistArg) (maxSteps depth : Nat)
    (mode : String) : ExecResult :=
  match histArg with
  | .intArg _ =>
    -- `actions_and_results` is the misbound `max_steps` int; the very first
    -- `_log_and_report` (the `Start task` line, agent.py:251) tries
    -- `.append` on it and raises before the stack push.
    .fault attrIntMsg st
  | _ =>
    let (buf, aliased) :=
      match histArg with
      | .default => (st.defaultHist, true)
      | .fresh l => (l, false)
      | .intArg _ => ([], false)
    let (st, buf) :=
      log_and_report st (indentOf depth ++ ("Start task: ") ++ task) buf aliased taskTag
    let st := {st with taskStack := st.taskStack ++ [(task, buf)]}
    let lo := stepLoop sub ⟨task, knowledge, maxSteps, depth, mode, taskTag⟩
      st 0 maxSteps buf aliased initApi none
    match lo.lastStep with
    | none =>
      -- `max_steps = 0`: the loop ran zero times and `step` is unbound at
      -- agent.py:333; the NameError propagates through the `finally:` pop.
      .fault nameErrMsg (popIfTop task lo.st)
    | some s =>
      if maxSteps ≤ s + 1 then
        -- agent.py:334 calls `self.agent._log_and_report(...)`, but
        -- `AutoAgent` has no attribute `agent`: the AttributeError
        -- propagates through the `finally:` pop (no step-limit record is
        -- appended, no results are returned).
        .fault attrAgentMsg (popIfTop task lo.st)
      else
        let results := lo.api.results
        let idleFlag := idleFlagOf lo.finishedStep
        let st2 := {lo.st with
          idleTaskCount := updateIdleCount depth idleFlag lo.st.idleTaskCount}
        let st3 :=
          if mode == ("normal") && !idleFlag then conclude_task sub st2 task lo.buf depth
          else st2
        .ok results (popIfTop task st3)

/-- `hm`-prefixed pieces of `handle_message`'s task description
(agent.py:398-407). -/
def hmTaskDescription (message history sender channel : String)
    (curTask : Option String) : String :=
  let historyFormatted :=
    if history = ("") then ("(No previous messages)")
    else ("```\n") ++ history ++ ("\n```")
  let taskContext :=
    match curTask with
    | some t =>
      ("\n## Current Ongoing Task Context\nThe agent is currently working on the following task:\nTask: ")
        ++ t ++ ("\n\n")
    | none => ("")
  ("Handle the following message from `") ++ sender ++ ("`:\n- Message: `") ++ message ++
    ("`\n- Channel: `") ++ channel ++ ("`\n- Recent conversation:\n") ++ historyFormatted ++
    ("\n") ++ taskContext

/-- The body of `handle_message` (agent.py:360-423): under the
message-handling lock (serialization itself is outside the sequential
model), close the ConcurrencyGate, run a `handle_message`-mode task over a
copy of the current task's history, convert any fault into a one-element
error result, and - in the `finally:` - reopen the gate unconditionally. -/
def handle_message_body (sub : AgentState → Call → ExecResult) (st : AgentState)
    (message history sender channel : String) : ExecResult :=
  let st1 := {st with gateOpen := false, handlingMessage := true}
  let info := get_current_task_info st1
  let taskDescription := hmTaskDescription message history sender channel info.1
  match sub st1 (.exec taskDescription ("") (.fresh info.2) 30 0 ("handle_message")) with
  | .ok results st2 =>
    .ok results {st2 with handlingMessage := false, gateOpen := true}
  | .fault e st2 =>
    .ok [("Error: ") ++ e] {st2 with handlingMessage := false, gateOpen := true}

/-- The orchestrator's entry points, structurally recursive on `fuel`
(one unit per nested entry).  The recursion-depth guard of `execute_task`
(agent.py:228-230) precedes everything, including the fuel check, exactly
as it is the first statement of the Python function. -/
def run : Nat → AgentState → Call → ExecResult
  | 0, st, .exec task _ _ _ depth _ =>
    if 3 ≤ depth then .ok [recursionErrMsg task] st else .fault fuelMsg st
  | fuel + 1, st, .exec task knowledge histArg maxSteps depth mode =>
    if 3 ≤ depth then .ok [recursionErrMsg task] st
    else execute_task_body (fun st1 c1 => run fuel st1 c1) st task knowledge histArg
      maxSteps depth mode
  | 0, st, .handle _ _ _ _ => .fault fuelMsg st
  | fuel + 1, st, .handle message history sender channel =>
    handle_message_body (fun st1 c1 => run fuel st1 c1) st message history sender channel

/-- `execute_task` (agent.py:212). -/
def execute_task (fuel : Nat) (st : AgentState) (task knowledge : String)
    (histArg : HistArg) (maxSteps depth : Nat) (mode : String) : ExecResult :=
  run fuel st (.exec task knowledge histArg maxSteps depth mode)

/-- `handle_message` (agent.py:360) as seen by its caller: it never raises
(the fault branch is reachable only through the model's fuel artifact and
is mapped like the source's `except Exception` would). -/
def handle_message (fuel : Nat) (st : AgentState) (message history sender channel : String) :
    List String × AgentState :=
  match run fuel st (.handle message history sender channel) with
  | .ok r st2 => (r, st2)
  | .fault e st2 => ([("Error: ") ++ e], st2)

/-- A fresh agent with a scripted planner: counters zero, empty stack,
gate open, empty shared default list and report log. -/
def mkState (planner : List (String × Option Script)) : AgentState :=
  ⟨0, [], true, false, [], [], planner⟩

/-
Claim C1 - a planner that never sets a terminal outcome: one answer with a
non-empty script that leaves `task_status = 'ongoing'`.
-/
def c1Planner : List (String × Option Script) :=
  [((""), some ⟨("c"), [], ("ongoing")⟩)]

/-- C1: with `maxSteps = 1` and a planner that never sets a terminal
outcome, the loop does run its one iteration (the planner stream is fully
consumed and the start/action records are logged), but the run then ends
in an `AttributeError` instead of appending a step-limit record and
returning the results recorded so far: agent.py:334 calls
`self.agent._log_and_report(...)` and `AutoAgent` has no attribute
`agent`.  The task-stack entry is still released by the `finally:`. -/
theorem c1_step_limit_attribute_error :
    (execute_task 3 (mkState c1Planner) ("t") ("") (HistArg.fresh []) 1 0 ("normal")).faultMsg
      = some attrAgentMsg
    ∧ (execute_task 3 (mkState c1Planner) ("t") ("") (HistArg.fresh []) 1 0 ("normal")).stateOf.planner
      = []
    ∧ (execute_task 3 (mkState c1Planner) ("t") ("") (HistArg.fresh []) 1 0 ("normal")).stateOf.taskStack
      = []
    ∧ (execute_task 3 (mkState c1Planner) ("t") ("") (HistArg.fresh []) 1 0 ("normal")).stateOf.reportLog.length
      = 2 := by decide

/-
Claim C2 - a depth-0 run whose step-0 script records a result and sets
`task_status = 'finished'`.
-/
def c2Planner : List (String × Option Script) :=
  [((""), some ⟨("agent.record_result(r)"), [Action.recordResult ("r")], ("finished")⟩)]

/-- C2 counterexample: a depth-0 run that terminates Finished at step 0
with a NON-empty result set (`["r"]`) is still classified idle by the code
(`idle_flag` depends only on `finished_step == 0`, agent.py:340-342): the
idle counter is incremented to 1 instead of being reset to 0 as the claim
requires for a completion with results. -/
theorem c2_idle_nonempty_results_counterexample :
    (execute_task 3 (mkState c2Planner) ("t") ("") (HistArg.fresh []) 2 0 ("normal")).resultsOf
      = some [("r")]
    ∧ (execute_task 3 (mkState c2Planner) ("t") ("") (HistArg.fresh []) 2 0 ("normal")).stateOf.idleTaskCount
      = 1 := by decide

/-- C2 amended: a depth-0 run is classified idle iff it terminates
Finished at step 0, regardless of its result set (the result set does not
occur in the computation at all); idle increments the counter by 1 and
any other depth-0 completion resets it to 0.  `idleFlagOf` and
`updateIdleCount` are exactly the accounting `execute_task_body` performs
after the loop (agent.py:339-348). -/
theorem c2_idle_accounting_amended (fs : Option Nat) (c : Nat) :
    (idleFlagOf fs = true ↔ fs = some 0)
    ∧ updateIdleCount 0 (idleFlagOf fs) c = (if fs = some 0 then c + 1 else 0) := by
  cases fs with
  | none => simp [idleFlagOf, updateIdleCount]
  | some n =>
    by_cases h : n = 0 <;> simp [idleFlagOf, updateIdleCount, h]

/-
Claim C3 - a normal-mode script at depth 0 spawning a sub-task with
`max_steps = 20`; the planner stream shows whether the nested run ever
took a step.
-/
def c3Planner : List (String × Option Script) :=
  [((""), some ⟨("x"), [], ("finished")⟩)]

/-- C3: `AgentAPI.execute_task(task, knowledge, max_steps)` (agent.py:836)
passes `max_steps` positionally into the `actions_and_results` slot of
`AutoAgent.execute_task`, so the nested run receives the int 20 as its
history buffer and the default budget 30; the first `.append` on that int
raises `AttributeError`.  The agent state comes back unchanged - in
particular the planner stream is untouched, so the nested run never
executed a single step, let alone 20 of them, and no fresh history was
ever used. -/
theorem c3_subtask_budget_misbinding :
    runAction (fun st1 c1 => run 3 st1 c1) (mkState c3Planner) initApi 0 ("normal")
      (Action.executeTaskSub ("sub") ("") 20)
    = (mkState c3Planner, initApi, some attrIntMsg) := by decide

/-- C4 counterexample: in `handle_message` mode, `query_model` does not
raise a capability violation - it executes normally (agent.py:816-818 has
no mode check) - so the restricted-mode surface does not expose "file
operations and note/result/message-send only". -/
theorem c4_query_model_allowed_counterexample :
    runAction (fun st1 c1 => run 0 st1 c1) (mkState []) initApi 0 ("handle_message")
      (Action.queryModel ("q"))
    = (mkState [], initApi, none) := by decide

/-- C4 amended: in HandleMessage and ConcludeTask modes, device delegation
(`do_with_device`) and sub-task spawning (`execute_task`) raise a
capability-violation fault from within the capability surface itself;
file operations, note/result recording, message send, and additionally
model query and message handling remain exposed without any gating. -/
theorem c4_mode_gating_amended (mode : String) (hmode : restrictedMode mode = true)
    (sub : AgentState → Call → ExecResult) (st : AgentState) (api : ApiState)
    (depth : Nat) (t k d : String) (ms : Nat) :
    runAction sub st api depth mode (Action.doWithDevice t k d)
      = (st, api, some (("do_with_device is not allowed in ") ++ mode ++ (" mode.")))
    ∧ runAction sub st api depth mode (Action.executeTaskSub t k ms)
      = (st, api, some (("execute_task is not allowed in ") ++ mode ++ (" mode.")))
    ∧ runAction sub st api depth mode (Action.fileOp t) = (st, api, none)
    ∧ runAction sub st api depth mode (Action.takeNote t)
      = (st, {api with notes := api.notes ++ [t]}, none)
    ∧ runAction sub st api depth mode (Action.recordResult t)
      = (st, {api with results := api.results ++ [t]}, none)
    ∧ runAction sub st api depth mode (Action.sendMessage t k d) = (st, api, none)
    ∧ runAction sub st api depth mode (Action.queryModel t) = (st, api, none)
    ∧ (runAction sub st api depth mode (Action.handleMessageSub t k d t)).2.2 = none := by
  refine ⟨?_, ?_, ?_, ?_, ?_, ?_, ?_, ?_⟩ <;>
    simp only [runAction, hmode, if_true, ite_true]
  cases sub st (Call.handle t k d t) <;> rfl

/-- C4 amended, witnessed at `handle_message` mode with concrete
arguments. -/
theorem c4_mode_gating_amended_witness :
    restrictedMode ("handle_message") = true
    ∧ (runAction (fun st1 _ => ExecResult.fault fuelMsg st1) (mkState []) initApi 0
          ("handle_message") (Action.doWithDevice ("a") ("b") ("c"))
        = (mkState [], initApi,
            some (("do_with_device is not allowed in ") ++ ("handle_message") ++ (" mode.")))
      ∧ runAction (fun st1 _ => ExecResult.fault fuelMsg st1) (mkState []) initApi 0
          ("handle_message") (Action.executeTaskSub ("a") ("b") 20)
        = (mkState [], initApi,
            some (("execute_task is not allowed in ") ++ ("handle_message") ++ (" mode.")))
      ∧ runAction (fun st1 _ => ExecResult.fault fuelMsg st1) (mkState []) initApi 0
          ("handle_message") (Action.fileOp ("a")) = (mkState [], initApi, none)
      ∧ runAction (fun st1 _ => ExecResult.fault fuelMsg st1) (mkState []) initApi 0
          ("handle_message") (Action.takeNote ("a"))
        = (mkState [], {initApi with notes := initApi.notes ++ [("a")]}, none)
      ∧ runAction (fun st1 _ => ExecResult.fault fuelMsg st1) (mkState []) initApi 0
          ("handle_message") (Action.recordResult ("a"))
        = (mkState [], {initApi with results := initApi.results ++ [("a")]}, none)
      ∧ runAction (fun st1 _ => ExecResult.fault fuelMsg st1) (mkState []) initApi 0
          ("handle_message") (Action.sendMessage ("a") ("b") ("c"))
        = (mkState [], initApi, none)
      ∧ runAction (fun st1 _ => ExecResult.fault fuelMsg st1) (mkState []) initApi 0
          ("handle_message") (Action.queryModel ("a")) = (mkState [], initApi, none)
      ∧ (runAction (fun st1 _ => ExecResult.fault fuelMsg st1) (mkState []) initApi 0
          ("handle_message") (Action.handleMessageSub ("a") ("b") ("c") ("a"))).2.2 = none) :=
  ⟨by decide,
    c4_mode_gating_amended ("handle_message") (by decide)
      (fun st1 _ => ExecResult.fault fuelMsg st1) (mkState []) initApi 0 ("a") ("b") ("c") 20⟩

/-- C5: any call to `execute_task` with recursion depth ≥ 3 returns the
synthetic failure result and leaves the whole agent state untouched - no
task-stack push, no history/log record, no planner consumption, no
sandbox activity (agent.py:228-230, the guard precedes everything). -/
theorem c5_recursion_ceiling (fuel : Nat) (st : AgentState) (task knowledge : String)
    (histArg : HistArg) (maxSteps depth : Nat) (mode : String) (h : 3 ≤ depth) :
    execute_task fuel st task knowledge histArg maxSteps depth mode
      = ExecResult.ok [recursionErrMsg task] st := by
  cases fuel <;> simp [execute_task, run, h]

/-- C5 witnessed at depth 3. -/
theorem c5_recursion_ceiling_witness :
    3 ≤ 3
    ∧ execute_task 0 (mkState []) ("t") ("") HistArg.default 30 3 ("normal")
      = ExecResult.ok [recursionErrMsg ("t")] (mkState []) :=
  ⟨by decide,
    c5_recursion_ceiling 0 (mkState []) ("t") ("") HistArg.default 30 3 ("normal") (by decide)⟩

/-
Claim C10 - two successive top-level calls that omit `actions_and_results`
(exactly what the `serve` loop does, agent.py:66-72); each run finishes at
step 0.
-/
def c10Planner : List (String × Option Script) :=
  [((""), some ⟨("c1"), [], ("finished")⟩), ((""), some ⟨("c2"), [], ("finished")⟩)]

def c10St1 : AgentState :=
  (execute_task 3 (mkState c10Planner) ("Continue doing my job.") ("") HistArg.default
    30 0 ("normal")).stateOf

def c10St2 : AgentState :=
  (execute_task 3 c10St1 ("Continue doing my job.") ("") HistArg.default
    30 0 ("normal")).stateOf

/-- C10: `actions_and_results=[]` is a mutable default argument, created
once at function-definition time; every call omitting the argument appends
into the same shared list.  After two successive serve-style runs, the
second run's history does not start empty: it begins with the first run's
two records, and the shared buffer has grown to four entries. -/
theorem c10_shared_default_history :
    c10St1.defaultHist.length = 2
    ∧ c10St2.defaultHist.length = 4
    ∧ c10St2.defaultHist.take 2 = c10St1.defaultHist := by decide

/-
Claim C6 - a depth-0 normal-mode run that finishes at step 1 (hence
non-idle); the third planner answer is only reachable by the conclusion
sub-task.
-/
def c6Planner : List (String × Option Script) :=
  [((""), some ⟨("c1"), [], ("ongoing")⟩),
   ((""), some ⟨("c2"), [], ("finished")⟩),
   ((""), some ⟨("c3"), [], ("finished")⟩)]

/-- C6 counterexample to "asynchronously": the conclusion sub-task is a
direct synchronous call (`self._conclude_task(...)`, agent.py:352 - no
thread is spawned), so by the time `execute_task` returns, the conclusion
run has already happened inside the call: its planner answer is consumed
and its depth-1 `Start task:` record (bearing the ConcludeTask summary)
is the fourth entry of the report log. -/
theorem c6_synchronous_conclusion_counterexample :
    (execute_task 3 (mkState c6Planner) ("t") ("") (HistArg.fresh []) 3 0 ("normal")).stateOf.planner
      = []
    ∧ (execute_task 3 (mkState c6Planner) ("t") ("") (HistArg.fresh []) 3 0 ("normal")).stateOf.reportLog.getD 3 ("")
      = taskTag ++ (" ") ++ indentOf 1 ++ ("Start task: ") ++ concludeSummary ("t")
    ∧ (execute_task 3 (mkState c6Planner) ("t") ("") (HistArg.fresh []) 3 0 ("normal")).stateOf.reportLog.length
      = 5 := by decide

/-- C6 amended: after a non-idle normal-mode completion the conclusion
sub-task runs synchronously as a best-effort nested call with mode
`conclude_task`, depth+1, step cap 10, over a copy of the history; any
failure of that nested run is contained in `_conclude_task`'s
`except Exception` (agent.py:139-141): even when the nested
`execute_task` call faults, `conclude_task` returns that run's state
normally and nothing propagates to the original caller. -/
theorem c6_conclusion_containment (fuel : Nat) (st stf : AgentState) (task : String)
    (buf : List Entry) (depth : Nat) (e : String)
    (hfail : run fuel st (Call.exec (concludeSummary task) ("") (HistArg.fresh buf) 10
        (depth + 1) ("conclude_task")) = ExecResult.fault e stf) :
    conclude_task (fun st1 c1 => run fuel st1 c1) st task buf depth = stf := by
  simp [conclude_task, hfail]

/-
C6 witness - a conclusion run that really faults: its planner never sets a
terminal outcome, so after its 10 steps the step-limit AttributeError of
agent.py:334 fires inside the nested run.
-/
def c6wPlanner : List (String × Option Script) :=
  List.replicate 10 ((""), some ⟨("c"), [], ("ongoing")⟩)

def c6wState : AgentState :=
  (run 1 (mkState c6wPlanner) (Call.exec (concludeSummary ("t")) ("") (HistArg.fresh [])
    10 (0 + 1) ("conclude_task"))).stateOf

/-- C6 witnessed: the nested conclusion run faults (step-budget
AttributeError), yet `conclude_task` returns its state normally. -/
theorem c6_conclusion_containment_witness :
    run 1 (mkState c6wPlanner) (Call.exec (concludeSummary ("t")) ("") (HistArg.fresh [])
        10 (0 + 1) ("conclude_task")) = ExecResult.fault attrAgentMsg c6wState
    ∧ conclude_task (fun st1 c1 => run 1 st1 c1) (mkState c6wPlanner) ("t") [] 0 = c6wState :=
  ⟨by decide,
    c6_conclusion_containment 1 (mkState c6wPlanner) c6wState ("t") [] 0 attrAgentMsg (by decide)⟩

/-- C7: when the planner supplies a script (empty thought, non-empty code)
and executing that script's capability calls raises a fault `e`, the loop
iteration appends exactly one error record (the tagged `stepErrMsg`) after
the action record and reduces to the next iteration (`stepIdx + 1`) with
the surviving accumulators; `finishedStep` is untouched, so the fault is
not a terminal outcome, and `stepLoop` has no fault channel at all, so the
fault cannot propagate out of `execute_task` (agent.py:327-331). -/
theorem c7_step_fault_contained (sub : AgentState → Call → ExecResult) (ctx : StepCtx)
    (st st2 : AgentState) (api api2 : ApiState) (stepIdx remaining : Nat)
    (buf : List Entry) (al : Bool) (fs : Option Nat) (script : Script)
    (rest : List (String × Option Script)) (e : String)
    (hlen : ¬ actionsAndResultsMaxLen < buf.length)
    (hplanner : st.planner = ((""), some script) :: rest)
    (hrun : runScript sub ctx.depth ctx.mode
        (log_and_report {st with planner := rest} (actionMsg ctx.depth stepIdx script.src)
          buf al ctx.tag).1 api script.actions
      = (st2, api2, some e)) :
    stepLoop sub ctx st stepIdx (remaining + 1) buf al api fs
      = stepLoop sub ctx
          (log_and_report st2 (stepErrMsg ctx.depth stepIdx e)
            ((log_and_report {st with planner := rest} (actionMsg ctx.depth stepIdx script.src)
              buf al ctx.tag).2) al ctx.tag).1
          (stepIdx + 1) remaining
          ((log_and_report st2 (stepErrMsg ctx.depth stepIdx e)
            ((log_and_report {st with planner := rest} (actionMsg ctx.depth stepIdx script.src)
              buf al ctx.tag).2) al ctx.tag).2)
          al api2 fs := by
  rw [stepLoop]
  rw [if_neg hlen]
  simp only [plannerCall, hplanner, if_true]
  rw [hrun]

/-
C7 witness pieces: a one-action script raising a fault.
-/
def c7Script : Script := ⟨("boom()"), [Action.raiseFault ("RuntimeError: boom")], ("ongoing")⟩

def c7St : AgentState := mkState [((""), some c7Script)]

def c7Sub : AgentState → Call → ExecResult := fun st1 _ => ExecResult.fault fuelMsg st1

def c7Ctx : StepCtx := ⟨("t"), (""), 2, 0, ("normal"), taskTag⟩

def c7St2 : AgentState :=
  (runScript c7Sub c7Ctx.depth c7Ctx.mode
    (log_and_report {c7St with planner := []} (actionMsg c7Ctx.depth 0 c7Script.src)
      [] false c7Ctx.tag).1 initApi c7Script.actions).1

/-- C7 witnessed at a concrete faulting script. -/
theorem c7_step_fault_contained_witness :
    (¬ actionsAndResultsMaxLen < ([] : List Entry).length)
    ∧ c7St.planner = ((""), some c7Script) :: []
    ∧ runScript c7Sub c7Ctx.depth c7Ctx.mode
        (log_and_report {c7St with planner := []} (actionMsg c7Ctx.depth 0 c7Script.src)
          [] false c7Ctx.tag).1 initApi c7Script.actions
      = (c7St2, initApi, some ("RuntimeError: boom"))
    ∧ stepLoop c7Sub c7Ctx c7St 0 (1 + 1) [] false initApi none
      = stepLoop c7Sub c7Ctx
          (log_and_report c7St2 (stepErrMsg c7Ctx.depth 0 ("RuntimeError: boom"))
            ((log_and_report {c7St with planner := []} (actionMsg c7Ctx.depth 0 c7Script.src)
              [] false c7Ctx.tag).2) false c7Ctx.tag).1
          (0 + 1) 1
          ((log_and_report c7St2 (stepErrMsg c7Ctx.depth 0 ("RuntimeError: boom"))
            ((log_and_report {c7St with planner := []} (actionMsg c7Ctx.depth 0 c7Script.src)
              [] false c7Ctx.tag).2) false c7Ctx.tag).2)
          false initApi none :=
  ⟨by decide, by decide, by decide,
    c7_step_fault_contained c7Sub c7Ctx c7St c7St2 initApi initApi 0 1 [] false none
      c7Script [] ("RuntimeError: boom") (by decide) (by decide) (by decide)⟩

/-- C8: any buffer of 150 entries is truncated at the loop's trim point
(agent.py:272-273, modelled by `trimHistory`) to exactly its last 100
entries in their original relative order - the buffer with its oldest 50
entries dropped. -/
theorem c8_history_trim (xs : List Entry) (h : xs.length = 150) :
    trimHistory xs = xs.drop 50 ∧ (trimHistory xs).length = 100 := by
  have h1 : actionsAndResultsMaxLen < xs.length := by
    rw [h, actionsAndResultsMaxLen]; omega
  refine ⟨?_, ?_⟩
  · rw [trimHistory, if_pos h1, h, actionsAndResultsMaxLen]
  · rw [trimHistory, if_pos h1, List.length_drop, h, actionsAndResultsMaxLen]

/-- C8 witnessed on a concrete 150-entry buffer of distinct entries. -/
def c8Entries : List Entry := (List.range 150).map (fun i => toString i)

theorem c8_history_trim_witness :
    c8Entries.length = 150
    ∧ (trimHistory c8Entries = c8Entries.drop 50 ∧ (trimHistory c8Entries).length = 100) :=
  ⟨by simp [c8Entries], c8_history_trim c8Entries (by simp [c8Entries])⟩

/-- C9: every `handle_message` call first closes the ConcurrencyGate (the
nested `handle_message`-mode run observes `gateOpen = false` before any
work is done) and reopens it unconditionally on exit: whether the inner
run returns normally or faults, the returned state has `gateOpen = true`
and `handlingMessage = false`, and a fault is converted into the synthetic
one-element `Error:` result instead of propagating (agent.py:373-423). -/
theorem c9_handle_message_gate (fuel : Nat) (st : AgentState)
    (message history sender channel : String) :
    (∃ r st2,
        run fuel {st with gateOpen := false, handlingMessage := true}
          (Call.exec (hmTaskDescription message history sender channel
              (get_current_task_info {st with gateOpen := false, handlingMessage := true}).1)
            ("")
            (HistArg.fresh
              (get_current_task_info {st with gateOpen := false, handlingMessage := true}).2)
            30 0 ("handle_message"))
          = ExecResult.ok r st2
        ∧ handle_message (fuel + 1) st message history sender channel
          = (r, {st2 with gateOpen := true, handlingMessage := false}))
    ∨ (∃ e st2,
        run fuel {st with gateOpen := false, handlingMessage := true}
          (Call.exec (hmTaskDescription message history sender channel
              (get_current_task_info {st with gateOpen := false, handlingMessage := true}).1)
            ("")
            (HistArg.fresh
              (get_current_task_info {st with gateOpen := false, handlingMessage := true}).2)
            30 0 ("handle_message"))
          = ExecResult.fault e st2
        ∧ handle_message (fuel + 1) st message history sender channel
          = ([("Error: ") ++ e], {st2 with gateOpen := true, handlingMessage := false})) := by
  cases hres : run fuel {st with gateOpen := false, handlingMessage := true}
      (Call.exec (hmTaskDescription message history sender channel
          (get_current_task_info {st with gateOpen := false, handlingMessage := true}).1)
        ("")
        (HistArg.fresh
          (get_current_task_info {st with gateOpen := false, handlingMessage := true}).2)
        30 0 ("handle_message")) with
  | ok r st2 =>
    left
    exact ⟨r, st2, rfl, by simp [handle_message, run, handle_message_body, hres]⟩
  | fault e st2 =>
    right
    exact ⟨e, st2, rfl, by simp [handle_message, run, handle_message_body, hres]⟩

end MobileClaw
